import Mathlib

/-!
Verification development for the Gene Pathway Generator application
(`genepathwaygenerator.py`): a Streamlit app that normalizes a free-text
list of gene symbols, fetches protein-protein interactions from the
STRING database, renders them, summarizes them with a language model,
and exports them as CSV.

The Python source is shallowly embedded here:
* Python `float` confidence scores are modelled as `ℚ` (the claims under
  study concern only order comparisons, which agree with the rational
  model on the decimal literals involved).
* The outbound HTTP call of `get_gene_interactions` is modelled by an
  explicit `HttpResult` oracle argument; the function additionally
  returns the number of external calls performed and the list of error
  messages surfaced to the user via `st.error`, so that the "no external
  call" and "error reported" behaviours are visible in the model.
* Exceptions that the Python code catches are modelled by the oracle's
  failure constructors; the embedded functions are total, reflecting
  that the caught failures do not propagate to the caller.
-/

namespace GenePathway

/-- An interaction triple `(geneA, geneB, confidenceScore)` as returned by
`get_gene_interactions` (Python `Tuple[str, str, float]`). -/
abbrev Edge := String × String × ℚ

/-- One JSON object of the STRING response body. The source reads
`interaction.get("score", 0.0)` (so `score` may be absent, modelled with
`Option`) and indexes `preferredName_A` / `preferredName_B` directly. -/
structure RawInteraction where
  preferredName_A : String
  preferredName_B : String
  score : Option ℚ
deriving DecidableEq, Repr

/-- Outcome of the single `requests.get` call at line 57: either a response
with a status code and JSON body, or a raised
`requests.exceptions.RequestException` (unreachable host, timeout, ...)
carrying its message. -/
inductive HttpResult where
  | success (status_code : Nat) (body : List RawInteraction)
  | requestException (msg : String)
deriving DecidableEq, Repr

/-- The `timeout=30` argument passed to `requests.get` at line 57. -/
def request_timeout : Nat := 30

/-- The filtering loop of `get_gene_interactions` (lines 63-72): skip an
interaction when `score < score_threshold` (a missing score defaults to
`0.0`), keep it when both preferred names are members of `genes`. -/
def filter_edges (genes : List String) (score_threshold : ℚ) :
    List RawInteraction → List Edge
  | [] => []
  | interaction :: rest =>
    let score := interaction.score.getD 0
    if score < score_threshold then
      filter_edges genes score_threshold rest
    else
      let a := interaction.preferredName_A
      let b := interaction.preferredName_B
      if a ∈ genes ∧ b ∈ genes then
        (a, b, score) :: filter_edges genes score_threshold rest
      else
        filter_edges genes score_threshold rest

/-- Embedding of `get_gene_interactions` (lines 44-76).  Besides the edge
list the model returns the number of external HTTP calls made and the
list of messages shown through `st.error`:

* `len(genes) < 2` short-circuits to `[]` before any call (lines 45-46);
* a non-200 status is reported and yields `[]` (lines 58-60);
* a `RequestException` is caught, reported and yields `[]` (lines 74-76);
* otherwise the body is filtered by `filter_edges`. -/
def get_gene_interactions (genes : List String) (score_threshold : ℚ)
    (resp : HttpResult) : List Edge × Nat × List String :=
  if genes.length < 2 then ([], 0, [])
  else
    match resp with
    | .success status_code body =>
        if status_code ≠ 200 then
          ([], 1, ["STRING API error: HTTP " ++ toString status_code])
        else
          (filter_edges genes score_threshold body, 1, [])
    | .requestException e => ([], 1, ["Network error: " ++ e])

/-- A fetch outcome the spec calls an upstream failure: a non-200 status,
or a raised request exception (unreachable host or timeout). -/
def upstream_failure : HttpResult → Prop
  | .success status_code _ => status_code ≠ 200
  | .requestException _ => True

/-- Every edge produced by the filtering loop meets the threshold and has
both endpoints in the requested gene list. -/
theorem mem_filter_edges {genes : List String} {thr : ℚ} {e : Edge} :
    ∀ {l : List RawInteraction}, e ∈ filter_edges genes thr l →
      thr ≤ e.2.2 ∧ e.1 ∈ genes ∧ e.2.1 ∈ genes := by
  intro l
  induction l with
  | nil => intro h; simp [filter_edges] at h
  | cons i rest ih =>
    intro h
    simp only [filter_edges] at h
    by_cases hs : i.score.getD 0 < thr
    · rw [if_pos hs] at h
      exact ih h
    · rw [if_neg hs] at h
      by_cases hab : i.preferredName_A ∈ genes ∧ i.preferredName_B ∈ genes
      · rw [if_pos hab] at h
        rcases List.mem_cons.1 h with he | he
        · subst he
          exact ⟨le_of_not_lt hs, hab.1, hab.2⟩
        · exact ih he
      · rw [if_neg hab] at h
        exact ih h

/-- Unfolding equation of `get_gene_interactions` on a response. -/
theorem get_gene_interactions_success_def (genes : List String) (thr : ℚ)
    (status_code : Nat) (body : List RawInteraction) :
    get_gene_interactions genes thr (.success status_code body) =
      if genes.length < 2 then ([], 0, [])
      else if status_code ≠ 200 then
        ([], 1, ["STRING API error: HTTP " ++ toString status_code])
      else (filter_edges genes thr body, 1, []) := rfl

/-- Unfolding equation of `get_gene_interactions` on a raised request
exception. -/
theorem get_gene_interactions_exception_def (genes : List String) (thr : ℚ)
    (e : String) :
    get_gene_interactions genes thr (.requestException e) =
      if genes.length < 2 then ([], 0, [])
      else ([], 1, ["Network error: " ++ e]) := rfl

/-- A successful (HTTP 200) fetch with a large-enough gene list returns the
filtered body, one external call, and no error message. -/
theorem get_gene_interactions_success (genes : List String) (thr : ℚ)
    (body : List RawInteraction) (hlen : 2 ≤ genes.length) :
    get_gene_interactions genes thr (.success 200 body) =
      (filter_edges genes thr body, 1, []) := by
  rw [get_gene_interactions_success_def, if_neg (not_lt.2 hlen)]
  simp

/-- C1: for every gene list and every threshold, every triple
`(a, b, score)` returned by `get_gene_interactions` satisfies
`score ≥ threshold` and has both `a` and `b` in the input gene list
(the double-membership filter). -/
theorem get_gene_interactions_mem_spec (genes : List String) (thr : ℚ)
    (resp : HttpResult) (a b : String) (s : ℚ)
    (h : (a, b, s) ∈ (get_gene_interactions genes thr resp).1) :
    thr ≤ s ∧ a ∈ genes ∧ b ∈ genes := by
  unfold get_gene_interactions at h
  split at h
  · simp at h
  · split at h
    · split at h
      · simp at h
      · exact mem_filter_edges h
    · simp at h

/-- Instantiation of C1 at the specification example: genes
`EGFR, KRAS, BRAF`, threshold `0.7`, mocked response with edges
`(EGFR,KRAS,0.9)`, `(KRAS,BRAF,0.5)`, `(BRAF,TP53,0.95)`; the surfaced
edge `(EGFR,KRAS,0.9)` meets the threshold and has both endpoints in the
gene list. -/
theorem get_gene_interactions_mem_spec_witness :
    mkRat 7 10 ≤ mkRat 9 10 ∧
      "EGFR" ∈ ["BRAF", "EGFR", "KRAS"] ∧ "KRAS" ∈ ["BRAF", "EGFR", "KRAS"] :=
  get_gene_interactions_mem_spec ["BRAF", "EGFR", "KRAS"] (mkRat 7 10)
    (.success 200
      [⟨"EGFR", "KRAS", some (mkRat 9 10)⟩,
       ⟨"KRAS", "BRAF", some (mkRat 5 10)⟩,
       ⟨"BRAF", "TP53", some (mkRat 95 100)⟩])
    "EGFR" "KRAS" (mkRat 9 10) (by decide)

/-- C2: a gene list of size strictly less than two short-circuits: the
result is empty, no external HTTP call is made, and no error is shown
(lines 45-46 return before the request is built). -/
theorem get_gene_interactions_short_circuit (genes : List String) (thr : ℚ)
    (resp : HttpResult) (h : genes.length < 2) :
    get_gene_interactions genes thr resp = ([], 0, []) := by
  unfold get_gene_interactions
  rw [if_pos h]

/-- Instantiation of C2 on the singleton gene list `["EGFR"]`. -/
theorem get_gene_interactions_short_circuit_witness :
    (["EGFR"] : List String).length < 2 ∧
      get_gene_interactions ["EGFR"] (mkRat 7 10) (.requestException "unreachable") =
        ([], 0, []) :=
  ⟨by decide,
   get_gene_interactions_short_circuit ["EGFR"] (mkRat 7 10)
     (.requestException "unreachable") (by decide)⟩

/-- C3: every upstream failure of the fetch — a non-200 status, or a
raised request exception (unreachable host, or the timeout that bounds
the wait at 30 time units) — yields the empty edge list together with at
least one user-visible error message; the embedded function returns
normally, mirroring that the `except` clause at lines 74-76 stops the
exception from propagating to the caller. -/
theorem get_gene_interactions_failure_recovery (genes : List String) (thr : ℚ)
    (resp : HttpResult) (hlen : 2 ≤ genes.length)
    (hfail : upstream_failure resp) :
    (get_gene_interactions genes thr resp).1 = [] ∧
      (get_gene_interactions genes thr resp).2.2 ≠ [] ∧
      request_timeout = 30 := by
  cases resp with
  | success status_code body =>
      have hst : status_code ≠ 200 := hfail
      rw [get_gene_interactions_success_def, if_neg (not_lt.2 hlen), if_pos hst]
      exact ⟨rfl, by simp, rfl⟩
  | requestException e =>
      rw [get_gene_interactions_exception_def, if_neg (not_lt.2 hlen)]
      exact ⟨rfl, by simp, rfl⟩

/-- Instantiation of C3 on a two-gene query whose request raises a
timeout exception. -/
theorem get_gene_interactions_failure_recovery_witness :
    2 ≤ (["EGFR", "KRAS"] : List String).length ∧
      upstream_failure (.requestException "timed out") ∧
      ((get_gene_interactions ["EGFR", "KRAS"] (mkRat 7 10)
          (.requestException "timed out")).1 = [] ∧
        (get_gene_interactions ["EGFR", "KRAS"] (mkRat 7 10)
            (.requestException "timed out")).2.2 ≠ [] ∧
        request_timeout = 30) :=
  ⟨by decide, trivial,
   get_gene_interactions_failure_recovery ["EGFR", "KRAS"] (mkRat 7 10)
     (.requestException "timed out") (by decide) trivial⟩

/-- The filtering loop treats a missing `score` field as `0.0`
(`interaction.get("score", 0.0)` at line 65): the interaction is skipped
when the threshold is strictly positive, and kept (when both endpoints
are in the gene list) when the threshold is zero. -/
theorem filter_edges_missing_score (genes : List String) (thr : ℚ)
    (i : RawInteraction) (rest : List RawInteraction) (hs : i.score = none) :
    (0 < thr → filter_edges genes thr (i :: rest) = filter_edges genes thr rest) ∧
      (thr = 0 → i.preferredName_A ∈ genes → i.preferredName_B ∈ genes →
        filter_edges genes thr (i :: rest) =
          (i.preferredName_A, i.preferredName_B, 0) ::
            filter_edges genes thr rest) := by
  constructor
  · intro hpos
    simp only [filter_edges, hs, Option.getD_none]
    rw [if_pos hpos]
  · intro h0 ha hb
    simp only [filter_edges, hs, Option.getD_none]
    rw [if_neg (by rw [h0]; exact lt_irrefl 0), if_pos ⟨ha, hb⟩]

/-- C10: on a successful (HTTP 200) response, an interaction object
lacking a `score` field is treated by `get_gene_interactions` as having
score `0.0`: it is excluded from the result whenever the threshold is
strictly positive, and included (when both endpoints are in the gene
list) with score `0` when the threshold is `0.0`. -/
theorem get_gene_interactions_missing_score (genes : List String) (thr : ℚ)
    (i : RawInteraction) (rest : List RawInteraction)
    (hlen : 2 ≤ genes.length) (hs : i.score = none) :
    (0 < thr →
      (get_gene_interactions genes thr (.success 200 (i :: rest))).1 =
        (get_gene_interactions genes thr (.success 200 rest)).1) ∧
      (thr = 0 → i.preferredName_A ∈ genes → i.preferredName_B ∈ genes →
        (get_gene_interactions genes thr (.success 200 (i :: rest))).1 =
          (i.preferredName_A, i.preferredName_B, 0) ::
            (get_gene_interactions genes thr (.success 200 rest)).1) := by
  rw [get_gene_interactions_success genes thr _ hlen,
    get_gene_interactions_success genes thr _ hlen]
  exact filter_edges_missing_score genes thr i rest hs

/-- Instantiation of C10: with genes `["EGFR", "KRAS"]` a score-less
interaction `(EGFR, KRAS)` is dropped at threshold `0.7` and kept with
score `0` at threshold `0`. -/
theorem get_gene_interactions_missing_score_witness :
    (0 < mkRat 7 10 →
      (get_gene_interactions ["EGFR", "KRAS"] (mkRat 7 10)
          (.success 200 [⟨"EGFR", "KRAS", none⟩])).1 =
        (get_gene_interactions ["EGFR", "KRAS"] (mkRat 7 10)
            (.success 200 [])).1) ∧
      (mkRat 7 10 = 0 → "EGFR" ∈ ["EGFR", "KRAS"] → "KRAS" ∈ ["EGFR", "KRAS"] →
        (get_gene_interactions ["EGFR", "KRAS"] (mkRat 7 10)
            (.success 200 [⟨"EGFR", "KRAS", none⟩])).1 =
          ("EGFR", "KRAS", 0) ::
            (get_gene_interactions ["EGFR", "KRAS"] (mkRat 7 10)
                (.success 200 [])).1) :=
  get_gene_interactions_missing_score ["EGFR", "KRAS"] (mkRat 7 10)
    ⟨"EGFR", "KRAS", none⟩ [] (by decide) rfl

/-!
Input normalizer (line 215):
`genes = sorted(set(g.upper().strip() for g in genes_input.replace(",", " ").split() if g.strip()))`.
Python strings are embedded as `List Char`.
-/

/-- The whitespace characters recognized by Python `str.split()` and
`str.strip()`: space, tab, newline, carriage return, vertical tab, form
feed. -/
def pyIsSpace (c : Char) : Bool :=
  c = ' ' || c = '\t' || c = '\n' || c = '\r' || c = '\x0b' || c = '\x0c'

/-- Python `str.strip()`: remove leading and trailing whitespace. -/
def pyStrip (s : List Char) : List Char :=
  ((s.dropWhile pyIsSpace).reverse.dropWhile pyIsSpace).reverse

/-- Python `str.upper()` on the basic latin range (gene symbols are
ASCII; `Char.toUpper` matches Python on that range). -/
def pyUpper (s : List Char) : List Char := s.map Char.toUpper

/-- Helper for Python `str.split()`: cut the string at every whitespace
character, keeping empty pieces. -/
def splitAtWs : List Char → List (List Char)
  | [] => [[]]
  | c :: cs =>
    if pyIsSpace c then [] :: splitAtWs cs
    else
      match splitAtWs cs with
      | [] => [[c]]
      | t :: ts => (c :: t) :: ts

/-- Python `str.split()` with no argument: split on whitespace runs,
discarding the empty pieces. -/
def pySplit (s : List Char) : List (List Char) :=
  (splitAtWs s).filter (fun t => !t.isEmpty)

/-- Lexicographic-by-code-point comparison of character lists, the order
Python `sorted` uses on strings. -/
def strLeB : List Char → List Char → Bool
  | [], _ => true
  | _ :: _, [] => false
  | a :: as, b :: bs => if a < b then true else if b < a then false else strLeB as bs

/-- The ordering relation used to model `sorted`. -/
def strLe (a b : List Char) : Prop := strLeB a b = true

instance : DecidableRel strLe := fun a b =>
  inferInstanceAs (Decidable (strLeB a b = true))

/-- Embedding of the normalizer at line 215.  `replace(",", " ")` maps
every comma to a space, `split()` is `pySplit`, the generator keeps
tokens with truthy `g.strip()` and produces `g.upper().strip()`, `set`
deduplicates (order immaterial because `sorted` reorders), and `sorted`
is modelled by a stable insertion sort under `strLe`. -/
def normalize_genes (genes_input : List Char) : List (List Char) :=
  List.insertionSort strLe
    (List.dedup
      (((pySplit (genes_input.map fun c => if c = ',' then ' ' else c)).filter
          (fun g => !(pyStrip g).isEmpty)).map (fun g => pyStrip (pyUpper g))))

/-- Packing a small code point into a `Char` and back is the identity. -/
theorem toNat_ofNat_of_lt {n : Nat} (h : n < 55296) : (Char.ofNat n).toNat = n := by
  have hv : n.isValidChar := Or.inl h
  rw [Char.ofNat, dif_pos hv]
  rfl

/-- On a lowercase latin letter, `Char.toUpper` subtracts 32 from the
code point. -/
theorem toUpper_toNat_of_lower {c : Char} (h1 : 97 ≤ c.toNat) (h2 : c.toNat ≤ 122) :
    (Char.toUpper c).toNat = c.toNat - 32 := by
  simp only [Char.toUpper]
  rw [if_pos ⟨h1, h2⟩]
  exact toNat_ofNat_of_lt (by omega)

/-- Away from the lowercase latin range, `Char.toUpper` is the identity. -/
theorem toUpper_eq_self_of_not_lower {c : Char}
    (h : ¬(97 ≤ c.toNat ∧ c.toNat ≤ 122)) : Char.toUpper c = c := by
  simp only [Char.toUpper]
  rw [if_neg h]

/-- `Char.toUpper` is idempotent. -/
theorem toUpper_idem (c : Char) : (Char.toUpper c).toUpper = Char.toUpper c := by
  by_cases h : 97 ≤ c.toNat ∧ c.toNat ≤ 122
  · have hn := toUpper_toNat_of_lower h.1 h.2
    exact toUpper_eq_self_of_not_lower (by omega)
  · rw [toUpper_eq_self_of_not_lower h, toUpper_eq_self_of_not_lower h]

/-- The code point of a whitespace character. -/
theorem pyIsSpace_true_toNat {c : Char} (h : pyIsSpace c = true) :
    c.toNat = 32 ∨ c.toNat = 9 ∨ c.toNat = 10 ∨ c.toNat = 13 ∨
      c.toNat = 11 ∨ c.toNat = 12 := by
  unfold pyIsSpace at h
  simp only [Bool.or_eq_true, decide_eq_true_eq] at h
  rcases h with ((((rfl | rfl) | rfl) | rfl) | rfl) | rfl <;> decide

/-- Uppercasing neither creates nor destroys whitespace. -/
theorem pyIsSpace_toUpper (c : Char) : pyIsSpace (Char.toUpper c) = pyIsSpace c := by
  by_cases h : 97 ≤ c.toNat ∧ c.toNat ≤ 122
  · have hn := toUpper_toNat_of_lower h.1 h.2
    have hl : pyIsSpace c = false := by
      cases hb : pyIsSpace c
      · rfl
      · have := pyIsSpace_true_toNat hb
        omega
    have hr : pyIsSpace (Char.toUpper c) = false := by
      cases hb : pyIsSpace (Char.toUpper c)
      · rfl
      · have := pyIsSpace_true_toNat hb
        omega
    rw [hl, hr]
  · rw [toUpper_eq_self_of_not_lower h]

/-- Dropping a predicate-true run from an all-true list empties it. -/
theorem dropWhile_eq_nil_of_all {α : Type} {p : α → Bool} :
    ∀ {l : List α}, (∀ c ∈ l, p c = true) → l.dropWhile p = []
  | [], _ => rfl
  | a :: l, h => by
      rw [List.dropWhile_cons, if_pos (h a (List.mem_cons_self a l))]
      exact dropWhile_eq_nil_of_all fun c hc => h c (List.mem_cons_of_mem a hc)

/-- An element on which the predicate fails survives `dropWhile`. -/
theorem mem_dropWhile_of_neg {α : Type} {p : α → Bool} {c : α} :
    ∀ {l : List α}, c ∈ l → p c = false → c ∈ l.dropWhile p := by
  intro l
  induction l with
  | nil => intro h _; exact absurd h (List.not_mem_nil c)
  | cons a l ih =>
    intro hc hp
    rw [List.dropWhile_cons]
    by_cases ha : p a = true
    · rw [if_pos ha]
      rcases List.mem_cons.1 hc with rfl | hc
      · rw [hp] at ha; cases ha
      · exact ih hc hp
    · rw [if_neg ha]
      exact hc

/-- Stripping only removes characters. -/
theorem mem_pyStrip {c : Char} {s : List Char} (h : c ∈ pyStrip s) : c ∈ s := by
  unfold pyStrip at h
  rw [List.mem_reverse] at h
  have h1 := List.dropWhile_subset pyIsSpace h
  rw [List.mem_reverse] at h1
  exact List.dropWhile_subset pyIsSpace h1

/-- A string containing a non-whitespace character does not strip to
empty. -/
theorem pyStrip_ne_nil {s : List Char} {c : Char} (hc : c ∈ s)
    (hp : pyIsSpace c = false) : pyStrip s ≠ [] := by
  unfold pyStrip
  intro h
  rw [List.reverse_eq_nil_iff] at h
  have h1 : c ∈ s.dropWhile pyIsSpace := mem_dropWhile_of_neg hc hp
  have h2 : c ∈ (s.dropWhile pyIsSpace).reverse := List.mem_reverse.2 h1
  have h3 := mem_dropWhile_of_neg h2 hp
  rw [h] at h3
  exact absurd h3 (List.not_mem_nil c)

/-- An all-whitespace string strips to empty. -/
theorem pyStrip_eq_nil_of_all {s : List Char}
    (h : ∀ c ∈ s, pyIsSpace c = true) : pyStrip s = [] := by
  unfold pyStrip
  rw [dropWhile_eq_nil_of_all h]
  rfl

/-- C4: for every free-text input, the normalizer produces a list with no
duplicate entries, and every entry is non-empty and uppercase (a fixed
point of `pyUpper`), whatever mix of commas, spaces and newlines
separates the tokens. -/
theorem normalize_genes_spec (genes_input : List Char) :
    (normalize_genes genes_input).Nodup ∧
      ∀ g ∈ normalize_genes genes_input, g ≠ [] ∧ pyUpper g = g := by
  constructor
  · exact ((List.perm_insertionSort strLe _).nodup_iff).2 (List.nodup_dedup _)
  · intro g hg
    unfold normalize_genes at hg
    rw [List.mem_insertionSort, List.mem_dedup] at hg
    rcases List.mem_map.1 hg with ⟨tok, htok, rfl⟩
    rcases List.mem_filter.1 htok with ⟨-, hne⟩
    have hne' : pyStrip tok ≠ [] := by
      intro h0
      rw [h0] at hne
      cases hne
    have hex : ∃ c ∈ tok, pyIsSpace c = false := by
      by_contra hall
      push_neg at hall
      exact hne' (pyStrip_eq_nil_of_all fun c hc =>
        Bool.not_eq_false _ ▸ (hall c hc))
    rcases hex with ⟨c, hc, hcf⟩
    constructor
    · exact pyStrip_ne_nil (List.mem_map_of_mem Char.toUpper hc)
        (by rw [pyIsSpace_toUpper]; exact hcf)
    · apply List.map_congr_left ?_ |>.trans (List.map_id _)
      intro a ha
      rcases List.mem_map.1 (mem_pyStrip ha) with ⟨b, -, rfl⟩
      exact toUpper_idem b

/-- Instantiation of C4 on the input `"egfr, kras\nEGFR"`: the normalizer
output is duplicate-free and the entry `KRAS` is non-empty and
uppercase. -/
theorem normalize_genes_spec_witness :
    (normalize_genes "egfr, kras\nEGFR".data).Nodup ∧
      ("KRAS".data ≠ [] ∧ pyUpper "KRAS".data = "KRAS".data) :=
  ⟨(normalize_genes_spec "egfr, kras\nEGFR".data).1,
   (normalize_genes_spec "egfr, kras\nEGFR".data).2 "KRAS".data (by decide)⟩

/-!
Gemini AI summary (`generate_ai_summary`, lines 154-201).  The external
model call is modelled by a `ModelResult` oracle: either the text the
call produced, or the message of the exception it raised.  Besides the
returned string the embedding returns the number of model calls
attempted, so that "does not call the external model" is visible.
-/

/-- Outcome of the `model.generate_content(...)` / `response.text` calls
inside the `try` block (lines 188-189): produced text, or any raised
exception with its message. -/
inductive ModelResult where
  | ok (text : String)
  | raised (msg : String)
deriving DecidableEq, Repr

/-- Formatting of `f"{score:.2f}"` at line 158: the score rendered with
two decimal places.  Python rounds the underlying double to the nearest
hundredth; the model rounds the rational half away from zero, which
agrees on every terminating decimal score the database returns. -/
def format2 (q : ℚ) : String :=
  let cents : Int := round (q * 100)
  let n := cents.natAbs
  (if cents < 0 then "-" else "") ++ toString (n / 100) ++ "." ++
    (if n % 100 < 10 then "0" else "") ++ toString (n % 100)

/-- The fixed instruction template of `full_prompt` (lines 164-186), up
to the interpolated `{prompt_text}`. -/
def prompt_head : String :=
  "You are an expert in molecular biology and bioinformatics pathway analysis.\n\nYou are given a list of gene–gene interactions with confidence scores obtained from a trusted protein–protein interaction database.\n\nYour task is to interpret these interactions using established biological knowledge only.\n\nGuidelines:\n• Describe an interaction as “activates” or “inhibits” only if this relationship is well supported in known signaling pathways.\n• If the direction or functional effect is uncertain, describe the interaction as “associative”, “regulatory”, or “functionally related”.\n• Do not assume causality where it is not clearly established.\n• If recognizable, mention the major signaling pathway(s) or biological process(es) involved (e.g., MAPK signaling, cell cycle regulation, apoptosis).\n• Summarize the overall biological implication of the interactions in 3–4 clear, connected sentences.\n\nStrict rules:\n• Do NOT invent genes, interactions, directions, or biological effects.\n• Base conclusions only on widely accepted biological knowledge.\n• Use simple, clear, human-readable biological language.\n• Avoid technical jargon, headings, bullet points, or formatting.\n• Write as a concise explanatory paragraph suitable for a scientific web application.\n\nHere are the gene interactions:\n\n"

/-- The highlight markup substituted for the word `activates`
(lines 192-194). -/
def span_activates : String :=
  "<span style=\x27color:green;font-weight:bold\x27>activates</span>"

/-- The highlight markup substituted for the word `inhibits`
(lines 195-197). -/
def span_inhibits : String :=
  "<span style=\x27color:red;font-weight:bold\x27>inhibits</span>"

/-- Embedding of `generate_ai_summary` (lines 154-201).  An empty
interaction list returns the literal early-exit string before any model
call; otherwise the prompt is assembled and the model consulted once:
its text gets the substring highlight substitutions, and any raised
exception is caught and converted into a user-visible error string
carrying the exception message (the embedding is total — nothing
propagates). -/
def generate_ai_summary (interactions : List Edge) (model_call : ModelResult) :
    String × Nat :=
  if interactions.isEmpty then
    ("No interactions to summarize.", 0)
  else
    let interaction_lines := interactions.map fun x =>
      x.1 ++ " interacts with " ++ x.2.1 ++ " (confidence " ++ format2 x.2.2 ++ ")"
    let prompt_text := String.intercalate "\n" interaction_lines
    let full_prompt := prompt_head ++ prompt_text ++ "\n"
    match model_call with
    | .ok text =>
        let summary := text.replace "activates" span_activates
        let summary := summary.replace "inhibits" span_inhibits
        (summary, 1)
    | .raised e =>
        let _ := full_prompt
        ("Could not generate summary: " ++ e, 1)

/-- C5: on the empty interaction list, `generate_ai_summary` returns
exactly the literal string `"No interactions to summarize."` and makes
zero calls to the external language model, whatever that model would
have answered. -/
theorem generate_ai_summary_empty (model_call : ModelResult) :
    generate_ai_summary [] model_call = ("No interactions to summarize.", 0) := rfl

/-- Instantiation of C5 with one concrete would-be model answer. -/
theorem generate_ai_summary_empty_witness :
    generate_ai_summary [] (.ok "some summary") =
      ("No interactions to summarize.", 0) :=
  generate_ai_summary_empty (.ok "some summary")

/-- C6: on every non-empty interaction list, when the external model
call raises, `generate_ai_summary` returns the user-visible string
embedding the failure reason (line 201) and — being total — propagates
nothing. -/
theorem generate_ai_summary_failure (interactions : List Edge) (e : String)
    (h : interactions ≠ []) :
    generate_ai_summary interactions (.raised e) =
      ("Could not generate summary: " ++ e, 1) := by
  cases interactions with
  | nil => exact absurd rfl h
  | cons x rest => rfl

/-- Instantiation of C6 on a one-edge list and a quota failure. -/
theorem generate_ai_summary_failure_witness :
    ([("EGFR", "KRAS", mkRat 9 10)] : List Edge) ≠ [] ∧
      generate_ai_summary [("EGFR", "KRAS", mkRat 9 10)] (.raised "quota exceeded") =
        ("Could not generate summary: " ++ "quota exceeded", 1) :=
  ⟨by decide,
   generate_ai_summary_failure [("EGFR", "KRAS", mkRat 9 10)] "quota exceeded"
     (by decide)⟩

/-!
Temporary-file lifecycle of the rendering pipeline.
`create_interactive_network` ends with
`tmp = tempfile.NamedTemporaryFile(delete=False, suffix=".html")`,
`net.save_graph(tmp.name)` (lines 149-151), and the button handler then
runs `components.html(open(html_file).read(), height=700)` followed by
`os.remove(html_file)` (lines 228-229).  The block is embedded as a
straight-line statement list with Python exception semantics: a raising
statement aborts the rest of the block.
-/

/-- The statements of the handler that touch the temporary file. -/
inductive RStmt where
  | createTemp
  | readTemp
  | removeTemp
  | other
deriving DecidableEq, Repr

/-- Runs a statement list given whether the read raises (`read_fails`)
and whether the temporary file currently exists.  `createTemp` brings
the file into existence, `removeTemp` deletes it, `readTemp` raises when
`read_fails`, aborting the block; the outcome is `.ok` with the final
existence flag, or `.error` with the message and the existence flag at
the moment the exception escaped. -/
def run_render : List RStmt → Bool → Bool → Except (String × Bool) Bool
  | [], _, temp_exists => .ok temp_exists
  | .createTemp :: rest, read_fails, _ => run_render rest read_fails true
  | .readTemp :: rest, read_fails, temp_exists =>
      if read_fails then .error ("read failed", temp_exists)
      else run_render rest read_fails temp_exists
  | .removeTemp :: rest, read_fails, _ => run_render rest read_fails false
  | .other :: rest, read_fails, temp_exists => run_render rest read_fails temp_exists

/-- The handler block in source order: create and fill the temporary
file (lines 149-151 via the call at 226), show the subheader (227), read
the file back into the display surface (228), delete it (229).  No
`try`/`finally` protects the deletion. -/
def render_block : List RStmt := [.createTemp, .other, .readTemp, .removeTemp]

/-- Counterexample to C7 as stated: in the execution where the read of
the temporary file fails, the block aborts with the exception while the
temporary file still exists — the deletion at line 229 never runs, so
the file leaks. -/
theorem render_block_read_failure_leaks :
    run_render render_block true false = .error ("read failed", true) := rfl

/-- C7 as amended: after a successful read the temporary file is deleted
(the block ends with the file gone); but when the read fails, the
exception propagates before `os.remove` and the file is left behind. -/
theorem render_block_temp_lifecycle (read_fails : Bool) :
    run_render render_block read_fails false =
      if read_fails then .error ("read failed", true) else .ok false := by
  cases read_fails <;> rfl

/-- Instantiation of the amended C7 on the successful execution. -/
theorem render_block_temp_lifecycle_witness :
    run_render render_block false false =
      if false then .error ("read failed", true) else .ok false :=
  render_block_temp_lifecycle false

/-!
Memoization: `@st.cache_data(show_spinner=False, ttl=3600)` at line 43.
The decorator's machinery lives in the Streamlit library, outside this
repository; following the spec (§3, §4.2, §9) it is modelled as an
explicit cache component: entries keyed by the exact call arguments
`(genes, score_threshold)`, holding the computed result and its storage
time, valid for a fixed 3600-second window, with no manual invalidation.
-/

/-- Modelled from the spec: one entry of the `st.cache_data` memoization
missing from the source (it lives in the Streamlit library) — key
`(genes, score_threshold)`, the cached result, and the storage time. -/
structure CacheEntry where
  genes : List String
  score_threshold : ℚ
  result : List Edge
  storedAt : Nat
deriving DecidableEq, Repr

/-- The `ttl=3600` argument at line 43: entries expire after one hour. -/
def cache_ttl : Nat := 3600

/-- Modelled from the spec: cache lookup — an entry answers a query made
at time `now` when its key equals the query key and the entry is at most
`cache_ttl` time units old. -/
def cache_lookup (cache : List CacheEntry) (genes : List String) (thr : ℚ)
    (now : Nat) : Option (List Edge) :=
  match cache.find? (fun en =>
      decide (en.genes = genes) && decide (en.score_threshold = thr) &&
        decide (now ≤ en.storedAt + cache_ttl)) with
  | some en => some en.result
  | none => none

/-- Modelled from the spec: `get_gene_interactions` as wrapped by the
decorator — a cache hit returns the stored result with no external call,
a miss computes through the undecorated function and stores the result
at the current time. -/
def cached_get_gene_interactions (cache : List CacheEntry) (genes : List String)
    (thr : ℚ) (now : Nat) (resp : HttpResult) :
    List Edge × Nat × List CacheEntry :=
  match cache_lookup cache genes thr now with
  | some r => (r, 0, cache)
  | none =>
      let out := get_gene_interactions genes thr resp
      (out.1, out.2.1, ⟨genes, thr, out.1, now⟩ :: cache)

/-- C8: after a fresh computation of a `(gene set, threshold)` query at
time `t0`, repeating the identical query at any time `t1` within the
one-hour window returns the previously computed result, makes no
external call, and leaves the cache unchanged. -/
theorem cached_get_cache_hit (cache : List CacheEntry) (genes : List String)
    (thr : ℚ) (t0 t1 : Nat) (resp resp1 : HttpResult)
    (hmiss : cache_lookup cache genes thr t0 = none)
    (hwin : t1 ≤ t0 + cache_ttl) :
    cached_get_gene_interactions
        (cached_get_gene_interactions cache genes thr t0 resp).2.2
        genes thr t1 resp1 =
      ((cached_get_gene_interactions cache genes thr t0 resp).1, 0,
        (cached_get_gene_interactions cache genes thr t0 resp).2.2) := by
  have hfirst : cached_get_gene_interactions cache genes thr t0 resp =
      ((get_gene_interactions genes thr resp).1,
        (get_gene_interactions genes thr resp).2.1,
        ⟨genes, thr, (get_gene_interactions genes thr resp).1, t0⟩ :: cache) := by
    unfold cached_get_gene_interactions
    rw [hmiss]
  rw [hfirst]
  unfold cached_get_gene_interactions cache_lookup
  rw [List.find?_cons_of_pos _ (by simp [hwin])]

/-- Instantiation of C8: a two-gene query computed at time 0 is answered
from the cache at time 3600 even though the service is down by then. -/
theorem cached_get_cache_hit_witness :
    cache_lookup [] ["EGFR", "KRAS"] (mkRat 7 10) 0 = none ∧
      (3600 ≤ 0 + cache_ttl) ∧
      cached_get_gene_interactions
          (cached_get_gene_interactions [] ["EGFR", "KRAS"] (mkRat 7 10) 0
            (.success 200 [⟨"EGFR", "KRAS", some (mkRat 9 10)⟩])).2.2
          ["EGFR", "KRAS"] (mkRat 7 10) 3600 (.requestException "down") =
        ((cached_get_gene_interactions [] ["EGFR", "KRAS"] (mkRat 7 10) 0
            (.success 200 [⟨"EGFR", "KRAS", some (mkRat 9 10)⟩])).1, 0,
          (cached_get_gene_interactions [] ["EGFR", "KRAS"] (mkRat 7 10) 0
            (.success 200 [⟨"EGFR", "KRAS", some (mkRat 9 10)⟩])).2.2) :=
  ⟨rfl, by decide,
   cached_get_cache_hit [] ["EGFR", "KRAS"] (mkRat 7 10) 0 3600
     (.success 200 [⟨"EGFR", "KRAS", some (mkRat 9 10)⟩])
     (.requestException "down") rfl (by decide)⟩

/-!
On-screen table and CSV export (lines 231-234 and 258-264).
-/

/-- Descending-confidence order between two rows: row `x` comes no later
than row `y` when its confidence is at least `y`'s
(`sort_values("Confidence", ascending=False)` at line 233). -/
def confDesc (x y : Edge) : Prop := y.2.2 ≤ x.2.2

instance : DecidableRel confDesc := fun x y =>
  inferInstanceAs (Decidable (y.2.2 ≤ x.2.2))

instance : IsTotal Edge confDesc := ⟨fun x y => le_total y.2.2 x.2.2⟩

instance : IsTrans Edge confDesc := ⟨fun _ _ _ h1 h2 => le_trans h2 h1⟩

/-- The rows of the on-screen interaction table (lines 232-234): the
DataFrame rows reordered by descending confidence.  pandas leaves the
relative order of equal keys unspecified; the model realizes the sort
with a stable insertion sort. -/
def display_table (interactions : List Edge) : List Edge :=
  List.insertionSort confDesc interactions

/-- The exported CSV document (lines 258-264): a header naming the three
columns and one data row per interaction (cell serialization elided). -/
structure CsvDoc where
  header : List String
  rows : List Edge
deriving DecidableEq, Repr

/-- Embedding of
`pd.DataFrame(interactions, columns=["Gene A", "Gene B", "Confidence"]).to_csv(index=False)`
at line 258: with `index=False` the document has exactly the three named
columns, and the data rows are the interactions in their given order —
the sort at line 233 acted on the separate display DataFrame only. -/
def csv_export (interactions : List Edge) : CsvDoc :=
  { header := ["Gene A", "Gene B", "Confidence"], rows := interactions }

/-- C9: for every non-empty interaction list, the on-screen table shows
the rows in descending confidence order (a permutation of the fetched
list), while the exported CSV has exactly the three columns
`Gene A`, `Gene B`, `Confidence` and one row per interaction in the
original fetch order. -/
theorem display_sorted_csv_original (interactions : List Edge)
    (_h : interactions ≠ []) :
    List.Sorted confDesc (display_table interactions) ∧
      (display_table interactions).Perm interactions ∧
      (csv_export interactions).header = ["Gene A", "Gene B", "Confidence"] ∧
      (csv_export interactions).rows = interactions :=
  ⟨List.sorted_insertionSort confDesc interactions,
   List.perm_insertionSort confDesc interactions, rfl, rfl⟩

/-- Instantiation of C9 on a two-row fetch arriving in ascending
order. -/
theorem display_sorted_csv_original_witness :
    ([("KRAS", "BRAF", mkRat 5 10), ("EGFR", "KRAS", mkRat 9 10)] : List Edge) ≠ [] ∧
      (List.Sorted confDesc
        (display_table [("KRAS", "BRAF", mkRat 5 10), ("EGFR", "KRAS", mkRat 9 10)]) ∧
      (display_table [("KRAS", "BRAF", mkRat 5 10), ("EGFR", "KRAS", mkRat 9 10)]).Perm
        [("KRAS", "BRAF", mkRat 5 10), ("EGFR", "KRAS", mkRat 9 10)] ∧
      (csv_export [("KRAS", "BRAF", mkRat 5 10), ("EGFR", "KRAS", mkRat 9 10)]).header =
        ["Gene A", "Gene B", "Confidence"] ∧
      (csv_export [("KRAS", "BRAF", mkRat 5 10), ("EGFR", "KRAS", mkRat 9 10)]).rows =
        [("KRAS", "BRAF", mkRat 5 10), ("EGFR", "KRAS", mkRat 9 10)]) :=
  ⟨by decide,
   display_sorted_csv_original
     [("KRAS", "BRAF", mkRat 5 10), ("EGFR", "KRAS", mkRat 9 10)] (by decide)⟩

end GenePathway
